import Mathlib

/-!
Verification of the command-to-request translation core of the `thirtyfour`
WebDriver client (files `src/common/command.rs` and
`src/common/connection_common.rs`).

The Rust code is shallowly embedded: `serde_json::Value` becomes the
inductive `Json` (objects are key/value lists in insertion order; statements
about key membership use the order-insensitive `Json.lookup`), Rust `String`
becomes Lean `String`, `u16` becomes `Nat`, and fallible functions return
`Except`.  Every definition is translated from the source file it names;
definitions for repository code that is not part of the two source files
(the capabilities helper, the typing-data value type, the version constant)
are modelled from the specification and say so in their doc comments.
-/

/-- Embedding of `serde_json::Value`.  Numbers in the commands under study are
integers, so `num` carries an `Int`.  Objects keep their fields as an
association list in insertion order. -/
inductive Json where
  | null : Json
  | bool (b : Bool) : Json
  | num (n : Int) : Json
  | str (s : String) : Json
  | arr (elems : List Json) : Json
  | obj (fields : List (String × Json)) : Json
deriving Repr

/-- Order-insensitive field lookup in a JSON object; `none` on non-objects
and missing keys. -/
def Json.lookup (j : Json) (key : String) : Option Json :=
  match j with
  | Json.obj fields => fields.lookup key
  | _ => none

mutual

/-- Structural copy of a JSON value, embedding `serde_json::Value::clone`. -/
def Json.clone : Json → Json
  | Json.null => Json.null
  | Json.bool b => Json.bool b
  | Json.num n => Json.num n
  | Json.str s => Json.str s
  | Json.arr elems => Json.arr (Json.cloneList elems)
  | Json.obj fields => Json.obj (Json.cloneFields fields)

/-- Structural copy of a list of JSON values. -/
def Json.cloneList : List Json → List Json
  | [] => []
  | x :: xs => Json.clone x :: Json.cloneList xs

/-- Structural copy of the field list of a JSON object. -/
def Json.cloneFields : List (String × Json) → List (String × Json)
  | [] => []
  | (k, v) :: kvs => (k, Json.clone v) :: Json.cloneFields kvs

end

/-- `pub const MAGIC_ELEMENTID` from `command.rs` line 12. -/
def MAGIC_ELEMENTID : String := "element-6066-11e4-a52e-4f735466cecf"

/-- `enum RequestMethod` from `command.rs`. -/
inductive RequestMethod where
  | Get : RequestMethod
  | Post : RequestMethod
  | Delete : RequestMethod
deriving Repr, DecidableEq

/-- `struct RequestData` from `command.rs`. -/
structure RequestData where
  method : RequestMethod
  url : String
  body : Option Json
deriving Repr

/-- `RequestData::new`: body starts out absent. -/
def RequestData.new (method : RequestMethod) (url : String) : RequestData :=
  { method := method, url := url, body := none }

/-- `RequestData::add_body`: sets the body. -/
def RequestData.add_body (self : RequestData) (body : Json) : RequestData :=
  { self with body := some body }

/-- `SessionId` is an opaque string handle (displayed verbatim in URLs). -/
abbrev SessionId := String

/-- `ElementId` is an opaque string handle (displayed verbatim). -/
abbrev ElementId := String

/-- `WindowHandle` is an opaque string handle (displayed verbatim). -/
abbrev WindowHandle := String

/-- `struct Actions(serde_json::Value)` from `command.rs`. -/
structure Actions where
  val : Json
deriving Repr

/-- Modelled from the spec: `TypingData` (from `src/common/keys.rs`, not among
the included source files) is typed keyboard input exposing two views: a
flattened string form (`to_string`) and a per-character sequence form
(`as_vec`).  We carry the character sequence. -/
structure TypingData where
  keys : List Char
deriving Repr

/-- Modelled from the spec: the flattened string view of `TypingData`. -/
def TypingData.to_string (t : TypingData) : String :=
  String.mk t.keys

/-- Modelled from the spec: the per-character sequence view of `TypingData`;
serde serializes a sequence of characters as a JSON array of one-character
strings. -/
def TypingData.as_vec (t : TypingData) : List Char :=
  t.keys

/-- JSON serialization of the `as_vec` view: an array of one-character
strings. -/
def TypingData.as_vec_json (t : TypingData) : Json :=
  Json.arr (t.as_vec.map (fun c => Json.str (String.mk [c])))

/-- Modelled from the spec: `TimeoutConfiguration` (from
`src/common/types.rs`, not among the included source files) is a record of
named timeout durations, serialized directly as the request body with no
wrapper key and with absent fields omitted. -/
structure TimeoutConfiguration where
  script : Option Int
  pageLoad : Option Int
  implicit : Option Int
deriving Repr

/-- Modelled from the spec: serde serialization of `TimeoutConfiguration`,
emitting only the present fields. -/
def TimeoutConfiguration.toJson (t : TimeoutConfiguration) : Json :=
  Json.obj
    ((t.script.toList.map (fun n => ("script", Json.num n)))
      ++ (t.pageLoad.toList.map (fun n => ("pageLoad", Json.num n)))
      ++ (t.implicit.toList.map (fun n => ("implicit", Json.num n))))

/-- Modelled from the spec: `OptionRect` (from `src/common/types.rs`, not
among the included source files) is a rectangle with optionally-absent
fields, serialized with omitted fields absent rather than null. -/
structure OptionRect where
  x : Option Int
  y : Option Int
  width : Option Int
  height : Option Int
deriving Repr

/-- Modelled from the spec: serde serialization of `OptionRect`, emitting
only the present fields. -/
def OptionRect.toJson (r : OptionRect) : Json :=
  Json.obj
    ((r.x.toList.map (fun n => ("x", Json.num n)))
      ++ (r.y.toList.map (fun n => ("y", Json.num n)))
      ++ (r.width.toList.map (fun n => ("width", Json.num n)))
      ++ (r.height.toList.map (fun n => ("height", Json.num n))))

/-- Modelled from the spec: `Cookie` (from `src/common/cookie.rs`, not among
the included source files) is a structured record (name, value, and optional
attributes) serialized as a JSON object. -/
structure Cookie where
  name : String
  value : Json
  path : Option String
  domain : Option String
  secure : Option Bool
  expiry : Option Int
deriving Repr

/-- Modelled from the spec: serde serialization of `Cookie`, emitting name,
value and the present optional attributes. -/
def Cookie.toJson (c : Cookie) : Json :=
  Json.obj
    ([("name", Json.str c.name), ("value", c.value)]
      ++ (c.path.toList.map (fun s => ("path", Json.str s)))
      ++ (c.domain.toList.map (fun s => ("domain", Json.str s)))
      ++ (c.secure.toList.map (fun b => ("secure", Json.bool b)))
      ++ (c.expiry.toList.map (fun n => ("expiry", Json.num n))))

/-- Modelled from the spec: `make_w3c_caps` (from
`src/common/capabilities/desiredcapabilities.rs`, not among the included
source files) adapts one capabilities document into the W3C "always match"
shape by copying the input document's keys; it returns a plain JSON value
(the signature used by `format_request` is infallible). -/
def make_w3c_caps (caps : Json) : Json :=
  Json.obj
    [("firstMatch", Json.arr [Json.obj []]),
     ("alwaysMatch",
       Json.obj (match caps with
         | Json.obj fields => fields
         | _ => []))]

/-- `enum By` from `command.rs` (the borrowed `&str` payloads become
`String`). -/
inductive By where
  | Id (s : String) : By
  | XPath (s : String) : By
  | LinkText (s : String) : By
  | PartialLinkText (s : String) : By
  | Name (s : String) : By
  | Tag (s : String) : By
  | ClassName (s : String) : By
  | Css (s : String) : By
deriving Repr

/-- `By::get_w3c_selector` from `command.rs` lines 62-75, arm for arm. -/
def By.get_w3c_selector : By → String × String
  | By.Id x => ("css selector", "[id=\"" ++ x ++ "\"]")
  | By.XPath x => ("xpath", x)
  | By.LinkText x => ("link text", x)
  | By.PartialLinkText x => ("partial link text", x)
  | By.Name x => ("css selector", "[name=\"" ++ x ++ "\"]")
  | By.Tag x => ("css selector", x)
  | By.ClassName x => ("css selector", "." ++ x)
  | By.Css x => ("css selector", x)

/-- `enum Command` from `command.rs` lines 77-134, variant for variant. -/
inductive Command where
  | NewSession (caps : Json) : Command
  | DeleteSession : Command
  | Status : Command
  | GetTimeouts : Command
  | SetTimeouts (tc : TimeoutConfiguration) : Command
  | NavigateTo (url : String) : Command
  | GetCurrentUrl : Command
  | Back : Command
  | Forward : Command
  | Refresh : Command
  | GetTitle : Command
  | GetWindowHandle : Command
  | CloseWindow : Command
  | SwitchToWindow (handle : WindowHandle) : Command
  | GetWindowHandles : Command
  | SwitchToFrameDefault : Command
  | SwitchToFrameNumber (n : Nat) : Command
  | SwitchToFrameElement (eid : ElementId) : Command
  | SwitchToParentFrame : Command
  | GetWindowRect : Command
  | SetWindowRect (rect : OptionRect) : Command
  | MaximizeWindow : Command
  | MinimizeWindow : Command
  | FullscreenWindow : Command
  | GetActiveElement : Command
  | FindElement (loc : By) : Command
  | FindElements (loc : By) : Command
  | FindElementFromElement (eid : ElementId) (loc : By) : Command
  | FindElementsFromElement (eid : ElementId) (loc : By) : Command
  | IsElementSelected (eid : ElementId) : Command
  | GetElementAttribute (eid : ElementId) (name : String) : Command
  | GetElementProperty (eid : ElementId) (name : String) : Command
  | GetElementCSSValue (eid : ElementId) (name : String) : Command
  | GetElementText (eid : ElementId) : Command
  | GetElementTagName (eid : ElementId) : Command
  | GetElementRect (eid : ElementId) : Command
  | IsElementEnabled (eid : ElementId) : Command
  | ElementClick (eid : ElementId) : Command
  | ElementClear (eid : ElementId) : Command
  | ElementSendKeys (eid : ElementId) (t : TypingData) : Command
  | GetPageSource : Command
  | ExecuteScript (script : String) (args : List Json) : Command
  | ExecuteAsyncScript (script : String) (args : List Json) : Command
  | GetAllCookies : Command
  | GetNamedCookie (name : String) : Command
  | AddCookie (cookie : Cookie) : Command
  | DeleteCookie (name : String) : Command
  | DeleteAllCookies : Command
  | PerformActions (actions : Actions) : Command
  | ReleaseActions : Command
  | DismissAlert : Command
  | AcceptAlert : Command
  | GetAlertText : Command
  | SendAlertText (t : TypingData) : Command
  | TakeScreenshot : Command
  | TakeElementScreenshot (eid : ElementId) : Command
deriving Repr

/-- `Command::format_request` from `command.rs` lines 137-413, arm for arm.
URL templating (`format!`) becomes string concatenation; `json!` object
literals keep their fields in source order. -/
def Command.format_request (self : Command) (session_id : SessionId) : RequestData :=
  match self with
  | Command.NewSession caps =>
      (RequestData.new RequestMethod.Post "/session").add_body
        (Json.obj
          [("capabilities", make_w3c_caps caps),
           ("desiredCapabilities", caps)])
  | Command.DeleteSession =>
      RequestData.new RequestMethod.Delete ("/session/" ++ session_id)
  | Command.Status => RequestData.new RequestMethod.Get "/status"
  | Command.GetTimeouts =>
      RequestData.new RequestMethod.Get ("/session/" ++ session_id ++ "/timeouts")
  | Command.SetTimeouts timeout_configuration =>
      (RequestData.new RequestMethod.Post
        ("/session/" ++ session_id ++ "/timeouts")).add_body
        timeout_configuration.toJson
  | Command.NavigateTo url =>
      (RequestData.new RequestMethod.Post
        ("/session/" ++ session_id ++ "/url")).add_body
        (Json.obj [("url", Json.str url)])
  | Command.GetCurrentUrl =>
      RequestData.new RequestMethod.Get ("/session/" ++ session_id ++ "/url")
  | Command.Back =>
      (RequestData.new RequestMethod.Post
        ("/session/" ++ session_id ++ "/back")).add_body (Json.obj [])
  | Command.Forward =>
      (RequestData.new RequestMethod.Post
        ("/session/" ++ session_id ++ "/forward")).add_body (Json.obj [])
  | Command.Refresh =>
      (RequestData.new RequestMethod.Post
        ("/session/" ++ session_id ++ "/refresh")).add_body (Json.obj [])
  | Command.GetTitle =>
      RequestData.new RequestMethod.Get ("/session/" ++ session_id ++ "/title")
  | Command.GetWindowHandle =>
      RequestData.new RequestMethod.Get ("/session/" ++ session_id ++ "/window")
  | Command.CloseWindow =>
      RequestData.new RequestMethod.Delete ("/session/" ++ session_id ++ "/window")
  | Command.SwitchToWindow window_handle =>
      (RequestData.new RequestMethod.Post
        ("/session/" ++ session_id ++ "/window")).add_body
        (Json.obj [("handle", Json.str window_handle)])
  | Command.GetWindowHandles =>
      RequestData.new RequestMethod.Get
        ("/session/" ++ session_id ++ "/window/handles")
  | Command.SwitchToFrameDefault =>
      (RequestData.new RequestMethod.Post
        ("/session/" ++ session_id ++ "/frame")).add_body
        (Json.obj [("id", Json.null)])
  | Command.SwitchToFrameNumber frame_number =>
      (RequestData.new RequestMethod.Post
        ("/session/" ++ session_id ++ "/frame")).add_body
        (Json.obj [("id", Json.num frame_number)])
  | Command.SwitchToFrameElement element_id =>
      (RequestData.new RequestMethod.Post
        ("/session/" ++ session_id ++ "/frame")).add_body
        (Json.obj
          [("id", Json.obj
            [("ELEMENT", Json.str element_id),
             (MAGIC_ELEMENTID, Json.str element_id)])])
  | Command.SwitchToParentFrame =>
      (RequestData.new RequestMethod.Post
        ("/session/" ++ session_id ++ "/frame/parent")).add_body (Json.obj [])
  | Command.GetWindowRect =>
      RequestData.new RequestMethod.Get
        ("/session/" ++ session_id ++ "/window/rect")
  | Command.SetWindowRect option_rect =>
      (RequestData.new RequestMethod.Post
        ("/session/" ++ session_id ++ "/window/rect")).add_body
        option_rect.toJson
  | Command.MaximizeWindow =>
      (RequestData.new RequestMethod.Post
        ("/session/" ++ session_id ++ "/window/maximize")).add_body (Json.obj [])
  | Command.MinimizeWindow =>
      (RequestData.new RequestMethod.Post
        ("/session/" ++ session_id ++ "/window/minimize")).add_body (Json.obj [])
  | Command.FullscreenWindow =>
      (RequestData.new RequestMethod.Post
        ("/session/" ++ session_id ++ "/window/fullscreen")).add_body (Json.obj [])
  | Command.GetActiveElement =>
      RequestData.new RequestMethod.Get
        ("/session/" ++ session_id ++ "/element/active")
  | Command.FindElement loc =>
      let sv := loc.get_w3c_selector
      (RequestData.new RequestMethod.Post
        ("/session/" ++ session_id ++ "/element")).add_body
        (Json.obj [("using", Json.str sv.1), ("value", Json.str sv.2)])
  | Command.FindElements loc =>
      let sv := loc.get_w3c_selector
      (RequestData.new RequestMethod.Post
        ("/session/" ++ session_id ++ "/elements")).add_body
        (Json.obj [("using", Json.str sv.1), ("value", Json.str sv.2)])
  | Command.FindElementFromElement element_id loc =>
      let sv := loc.get_w3c_selector
      (RequestData.new RequestMethod.Post
        ("/session/" ++ session_id ++ "/element/" ++ element_id ++ "/element")).add_body
        (Json.obj [("using", Json.str sv.1), ("value", Json.str sv.2)])
  | Command.FindElementsFromElement element_id loc =>
      let sv := loc.get_w3c_selector
      (RequestData.new RequestMethod.Post
        ("/session/" ++ session_id ++ "/element/" ++ element_id ++ "/elements")).add_body
        (Json.obj [("using", Json.str sv.1), ("value", Json.str sv.2)])
  | Command.IsElementSelected element_id =>
      RequestData.new RequestMethod.Get
        ("/session/" ++ session_id ++ "/element/" ++ element_id ++ "/selected")
  | Command.GetElementAttribute element_id attribute_name =>
      RequestData.new RequestMethod.Get
        ("/session/" ++ session_id ++ "/element/" ++ element_id ++ "/attribute/"
          ++ attribute_name)
  | Command.GetElementProperty element_id property_name =>
      RequestData.new RequestMethod.Get
        ("/session/" ++ session_id ++ "/element/" ++ element_id ++ "/proprty/"
          ++ property_name)
  | Command.GetElementCSSValue element_id property_name =>
      RequestData.new RequestMethod.Get
        ("/session/" ++ session_id ++ "/element/" ++ element_id ++ "/css/"
          ++ property_name)
  | Command.GetElementText element_id =>
      RequestData.new RequestMethod.Get
        ("/session/" ++ session_id ++ "/element/" ++ element_id ++ "/text")
  | Command.GetElementTagName element_id =>
      RequestData.new RequestMethod.Get
        ("/session/" ++ session_id ++ "/element/" ++ element_id ++ "/name")
  | Command.GetElementRect element_id =>
      RequestData.new RequestMethod.Get
        ("/session/" ++ session_id ++ "/element/" ++ element_id ++ "/rect")
  | Command.IsElementEnabled element_id =>
      RequestData.new RequestMethod.Get
        ("/session/" ++ session_id ++ "/element/" ++ element_id ++ "/enabled")
  | Command.ElementClick element_id =>
      (RequestData.new RequestMethod.Post
        ("/session/" ++ session_id ++ "/element/" ++ element_id ++ "/click")).add_body
        (Json.obj [])
  | Command.ElementClear element_id =>
      (RequestData.new RequestMethod.Post
        ("/session/" ++ session_id ++ "/element/" ++ element_id ++ "/clear")).add_body
        (Json.obj [])
  | Command.ElementSendKeys element_id typing_data =>
      (RequestData.new RequestMethod.Post
        ("/session/" ++ session_id ++ "/element/" ++ element_id ++ "/value")).add_body
        (Json.obj
          [("text", Json.str typing_data.to_string),
           ("value", typing_data.as_vec_json)])
  | Command.GetPageSource =>
      RequestData.new RequestMethod.Get ("/session/" ++ session_id ++ "/source")
  | Command.ExecuteScript script args =>
      (RequestData.new RequestMethod.Post
        ("/session/" ++ session_id ++ "/execute/sync")).add_body
        (Json.obj [("script", Json.str script), ("args", Json.arr args)])
  | Command.ExecuteAsyncScript script args =>
      (RequestData.new RequestMethod.Post
        ("/session/" ++ session_id ++ "/execute/async")).add_body
        (Json.obj [("script", Json.str script), ("args", Json.arr args)])
  | Command.GetAllCookies =>
      RequestData.new RequestMethod.Get ("/session/" ++ session_id ++ "/cookie")
  | Command.GetNamedCookie cookie_name =>
      RequestData.new RequestMethod.Get
        ("/session/" ++ session_id ++ "/cookie/" ++ cookie_name)
  | Command.AddCookie cookie =>
      (RequestData.new RequestMethod.Post
        ("/session/" ++ session_id ++ "/cookie")).add_body
        (Json.obj [("cookie", cookie.toJson)])
  | Command.DeleteCookie cookie_name =>
      RequestData.new RequestMethod.Delete
        ("/session/" ++ session_id ++ "/cookie/" ++ cookie_name)
  | Command.DeleteAllCookies =>
      RequestData.new RequestMethod.Delete
        ("/session/" ++ session_id ++ "/cookie")
  | Command.PerformActions actions =>
      (RequestData.new RequestMethod.Post
        ("/session/" ++ session_id ++ "/actions")).add_body
        (Json.obj [("actions", actions.val)])
  | Command.ReleaseActions =>
      RequestData.new RequestMethod.Delete
        ("/session/" ++ session_id ++ "/actions")
  | Command.DismissAlert =>
      (RequestData.new RequestMethod.Post
        ("/session/" ++ session_id ++ "/alert/dismiss")).add_body (Json.obj [])
  | Command.AcceptAlert =>
      (RequestData.new RequestMethod.Post
        ("/session/" ++ session_id ++ "/alert/accept")).add_body (Json.obj [])
  | Command.GetAlertText =>
      RequestData.new RequestMethod.Get
        ("/session/" ++ session_id ++ "/alert/text")
  | Command.SendAlertText typing_data =>
      (RequestData.new RequestMethod.Post
        ("/session/" ++ session_id ++ "/alert/text")).add_body
        (Json.obj
          [("value", typing_data.as_vec_json),
           ("text", Json.str typing_data.to_string)])
  | Command.TakeScreenshot =>
      RequestData.new RequestMethod.Get
        ("/session/" ++ session_id ++ "/screenshot")
  | Command.TakeElementScreenshot element_id =>
      RequestData.new RequestMethod.Get
        ("/session/" ++ session_id ++ "/element/" ++ element_id ++ "/screenshot")

/-! ## Embedding of `src/common/connection_common.rs` -/

/-- Modelled from the spec: the crate version baked into the user-agent via
`env!("CARGO_PKG_VERSION")` (the manifest is not among the included source
files); a fixed identifying version string. -/
def VERSION : String := "0.4.2"

/-- A character reqwest's `HeaderValue::from_str` accepts: visible ASCII or
spacing (tab or byte 32 and above), excluding DEL. -/
def validHeaderChar (c : Char) : Prop :=
  c = Char.ofNat 9 ∨ (32 ≤ c.toNat ∧ c.toNat ≠ 127)

instance (c : Char) : Decidable (validHeaderChar c) := by
  unfold validHeaderChar; infer_instance

/-- `RemoteConnectionError` (from `src/error.rs`, not among the included
source files): the header-construction failure carried by `build_headers`. -/
inductive RemoteConnectionError where
  | InvalidHeader (value : String) : RemoteConnectionError
deriving Repr

/-- Embedding of `"...".parse::<HeaderValue>()`: succeeds exactly when every
character is a valid header character. -/
def parseHeaderValue (s : String) : Except RemoteConnectionError String :=
  if s.toList.all (fun c => decide (validHeaderChar c)) then Except.ok s
  else Except.error (RemoteConnectionError.InvalidHeader s)

/-- A header map, embedded as a list of (lower-case name, value) pairs in
insertion order. -/
abbrev HeaderMap := List (String × String)

/-- Order-insensitive header lookup by (lower-case) name. -/
def lookupHeader (headers : HeaderMap) (name : String) : Option String :=
  headers.lookup name

/-- Credential components extracted from a server URL. -/
structure UrlParts where
  username : Option String
  password : Option String
deriving Repr

/-- Embedding of the `urlparse` crate's credential extraction (a port of
Python `urlparse`): the netloc is the text between `://` and the next `/`;
if it contains `@`, the userinfo before the `@` splits at its first `:` into
username and password (no `:` means no password); without `://` or `@` there
are no credentials. -/
def urlparse (addr : String) : UrlParts :=
  match addr.splitOn "://" with
  | _ :: rest :: _ =>
      let netloc := (rest.splitOn "/").headD ""
      match netloc.splitOn "@" with
      | userinfo :: _ :: _ =>
          match userinfo.splitOn ":" with
          | u :: p :: ps => { username := some u,
                              password := some (String.intercalate ":" (p :: ps)) }
          | [u] => { username := some u, password := none }
          | [] => { username := none, password := none }
      | _ => { username := none, password := none }
  | _ => { username := none, password := none }

/-- The base64 alphabet used by `base64::encode`. -/
def base64Alphabet : String :=
  "ABCDEFGHIJKLMNOPQRSTUVWXYZabcdefghijklmnopqrstuvwxyz0123456789+/"

/-- The base64 digit for a 6-bit value. -/
def b64char (n : Nat) : Char :=
  base64Alphabet.toList.getD n 'A'

/-- Embedding of `base64::encode` on a byte sequence: standard base64 with
`=` padding, three input bytes per four output characters. -/
def base64Encode : List Nat → String
  | [] => ""
  | [a] =>
      String.mk [b64char (a / 4), b64char (a % 4 * 16), '=', '=']
  | [a, b] =>
      String.mk [b64char (a / 4), b64char (a % 4 * 16 + b / 16),
                 b64char (b % 16 * 4), '=']
  | a :: b :: c :: rest =>
      String.mk [b64char (a / 4), b64char (a % 4 * 16 + b / 16),
                 b64char (b % 16 * 4 + c / 64), b64char (c % 64)]
        ++ base64Encode rest

/-- The UTF-8 bytes of a string, as naturals; `base64::encode` consumes the
UTF-8 encoding of its `&str` argument. -/
def strBytes (s : String) : List Nat :=
  s.toUTF8.toList.map (fun b => b.toNat)

/-- `build_headers` from `connection_common.rs` lines 13-30, statement for
statement: the four fixed headers, and the Basic-Auth header exactly when
the parsed URL yields both a username and a password; each insertion parses
its value with `?`-propagation of the encoding error. -/
def build_headers (remote_server_addr : String) :
    Except RemoteConnectionError HeaderMap := do
  let accept ← parseHeaderValue "application/json"
  let contentType ← parseHeaderValue "application/json;charset=UTF-8"
  let userAgent ← parseHeaderValue ("thirtyfour/" ++ VERSION ++ " (rust)")
  let headers₀ : HeaderMap :=
    [("accept", accept), ("content-type", contentType), ("user-agent", userAgent)]
  let parsed_url := urlparse remote_server_addr
  let headers₁ ← match parsed_url.username, parsed_url.password with
    | some username, some password => do
        let base64_string := base64Encode (strBytes (username ++ ":" ++ password))
        let auth ← parseHeaderValue ("Basic " ++ base64_string)
        pure (headers₀ ++ [("authorization", auth)])
    | _, _ => pure headers₀
  let connection ← parseHeaderValue "keep-alive"
  pure (headers₁ ++ [("connection", connection)])

/-- `WebDriverError` (from `src/error.rs`, not among the included source
files), restricted to the variant produced by the `From<serde_json::Error>`
conversion used by `unwrap` and `unwrap_vec`. -/
inductive WebDriverError where
  | DeserializationError (cause : String) : WebDriverError
deriving Repr

/-- A serde decoder for a target type `α`, embedding
`serde_json::from_value`: it either produces a typed value or reports the
structural mismatch. -/
abbrev Decoder (α : Type) := Json → Except String α

/-- Embedding of serde's `Vec<T>` deserialization: the value must be an
array and every element must decode; the first element failure aborts the
whole decode (no partial sequence). -/
def decodeVec {α : Type} (dec : Decoder α) : Decoder (List α) :=
  fun value =>
    match value with
    | Json.arr elems => elems.mapM dec
    | _ => Except.error "invalid type: expected a sequence"

/-- `unwrap` from `connection_common.rs` lines 32-38: decode one typed value
from a structural copy of the input, converting the serde error into a
`WebDriverError`. -/
def unwrap {α : Type} (dec : Decoder α) (value : Json) :
    Except WebDriverError α :=
  match dec value.clone with
  | Except.ok s => Except.ok s
  | Except.error e => Except.error (WebDriverError.DeserializationError e)

/-- `unwrap_vec` from `connection_common.rs` lines 40-46: decode a typed
list from a structural copy of the input, converting the serde error into a
`WebDriverError`. -/
def unwrap_vec {α : Type} (dec : Decoder α) (value : Json) :
    Except WebDriverError (List α) :=
  match decodeVec dec value.clone with
  | Except.ok v => Except.ok v
  | Except.error e => Except.error (WebDriverError.DeserializationError e)

/-- A concrete decoder for booleans, embedding serde's `bool`
deserialization; used to exercise the unwrap entry points on concrete
inputs. -/
def decodeBool : Decoder Bool :=
  fun value =>
    match value with
    | Json.bool b => Except.ok b
    | _ => Except.error "invalid type: expected a boolean"

/-- The five deletion commands named by the spec: delete-session,
close-window, delete-cookie, delete-all-cookies, release-actions. -/
def Command.isDeletion : Command → Bool
  | Command.DeleteSession => true
  | Command.CloseWindow => true
  | Command.DeleteCookie _ => true
  | Command.DeleteAllCookies => true
  | Command.ReleaseActions => true
  | _ => false

/-- The state-changing POST commands with no intrinsic payload named by the
spec: back, forward, refresh, switch-to-parent-frame, maximize, minimize,
fullscreen, dismiss alert, accept alert, element click, element clear. -/
def Command.isEmptyPayloadPost : Command → Bool
  | Command.Back => true
  | Command.Forward => true
  | Command.Refresh => true
  | Command.SwitchToParentFrame => true
  | Command.MaximizeWindow => true
  | Command.MinimizeWindow => true
  | Command.FullscreenWindow => true
  | Command.DismissAlert => true
  | Command.AcceptAlert => true
  | Command.ElementClick _ => true
  | Command.ElementClear _ => true
  | _ => false

/-! ## Helper lemmas -/

mutual

/-- A structural copy of a JSON value equals the value. -/
theorem Json.clone_id : ∀ j : Json, Json.clone j = j
  | Json.null => rfl
  | Json.bool _ => rfl
  | Json.num _ => rfl
  | Json.str _ => rfl
  | Json.arr elems => by rw [Json.clone, Json.cloneList_id]
  | Json.obj fields => by rw [Json.clone, Json.cloneFields_id]

/-- A structural copy of a JSON list equals the list. -/
theorem Json.cloneList_id : ∀ l : List Json, Json.cloneList l = l
  | [] => rfl
  | x :: xs => by rw [Json.cloneList, Json.clone_id x, Json.cloneList_id xs]

/-- A structural copy of a JSON field list equals the field list. -/
theorem Json.cloneFields_id : ∀ l : List (String × Json), Json.cloneFields l = l
  | [] => rfl
  | (k, v) :: kvs => by
      rw [Json.cloneFields, Json.clone_id v, Json.cloneFields_id kvs]

end

/-! ## The claims -/

/-- C1: for every `Command` variant and every `SessionId`, `format_request`
returns a `RequestData` (it is a total function into `RequestData`, with no
error channel), and the same `(Command, SessionId)` pair always yields
exactly one `RequestData` (same method, same URL string, same optional
body). -/
theorem format_request_total_deterministic (c : Command) (s : SessionId) :
    ∃! r : RequestData, Command.format_request c s = r :=
  ⟨Command.format_request c s, rfl, fun _ h => h.symm⟩

/-- C3: all three frame-switch commands POST to `/session/.../frame`; the
bodies are exactly an object mapping `id` to null (default frame), to the
frame number, and, for an element target, to an object holding exactly the
legacy `ELEMENT` key and the W3C magic key, both mapped to the element id
string. -/
theorem frame_switch_bodies (s : SessionId) (n : Nat) (e : ElementId) :
    Command.format_request Command.SwitchToFrameDefault s =
      { method := RequestMethod.Post, url := "/session/" ++ s ++ "/frame",
        body := some (Json.obj [("id", Json.null)]) }
  ∧ Command.format_request (Command.SwitchToFrameNumber n) s =
      { method := RequestMethod.Post, url := "/session/" ++ s ++ "/frame",
        body := some (Json.obj [("id", Json.num n)]) }
  ∧ Command.format_request (Command.SwitchToFrameElement e) s =
      { method := RequestMethod.Post, url := "/session/" ++ s ++ "/frame",
        body := some (Json.obj
          [("id", Json.obj
            [("ELEMENT", Json.str e),
             ("element-6066-11e4-a52e-4f735466cecf", Json.str e)])]) } :=
  ⟨rfl, rfl, rfl⟩

/-- C4: for every capabilities document, `NewSession` produces a POST to
`/session` whose body is an object carrying both the `capabilities` key
(mapped to the W3C-adapted form) and the `desiredCapabilities` key (mapped
to the raw input), regardless of the shape of the input. -/
theorem new_session_dual_capabilities (caps : Json) (s : SessionId) :
    Command.format_request (Command.NewSession caps) s =
      { method := RequestMethod.Post, url := "/session",
        body := some (Json.obj
          [("capabilities", make_w3c_caps caps),
           ("desiredCapabilities", caps)]) }
  ∧ (Command.format_request (Command.NewSession caps) s).body.map
      (fun b => (b.lookup "capabilities", b.lookup "desiredCapabilities")) =
      some (some (make_w3c_caps caps), some caps) :=
  ⟨rfl, rfl⟩

/-- C5: the locator translation maps by-id to a synthesized attribute CSS
selector, by-name likewise, by-class-name to a class selector, passes
by-tag and by-css through unchanged under `css selector`, and passes
xpath/link-text/partial-link-text through unchanged under their protocol
strategy names — with the input string spliced in verbatim, for every input
string. -/
theorem get_w3c_selector_spec (x : String) :
    (By.Id x).get_w3c_selector = ("css selector", "[id=\"" ++ x ++ "\"]")
  ∧ (By.Name x).get_w3c_selector = ("css selector", "[name=\"" ++ x ++ "\"]")
  ∧ (By.ClassName x).get_w3c_selector = ("css selector", "." ++ x)
  ∧ (By.Tag x).get_w3c_selector = ("css selector", x)
  ∧ (By.Css x).get_w3c_selector = ("css selector", x)
  ∧ (By.XPath x).get_w3c_selector = ("xpath", x)
  ∧ (By.LinkText x).get_w3c_selector = ("link text", x)
  ∧ (By.PartialLinkText x).get_w3c_selector = ("partial link text", x) :=
  ⟨rfl, rfl, rfl, rfl, rfl, rfl, rfl, rfl⟩

/-- C6: attribute, property and CSS-value lookups are GETs with no body to
`/session/.../element/.../<segment>/<name>`, differing only in the segment,
which is `attribute`, `proprty` (as the source spells it) and `css`
respectively. -/
theorem element_lookup_segments (s : SessionId) (e : ElementId) (name : String) :
    Command.format_request (Command.GetElementAttribute e name) s =
      { method := RequestMethod.Get,
        url := "/session/" ++ s ++ "/element/" ++ e ++ "/attribute/" ++ name,
        body := none }
  ∧ Command.format_request (Command.GetElementProperty e name) s =
      { method := RequestMethod.Get,
        url := "/session/" ++ s ++ "/element/" ++ e ++ "/proprty/" ++ name,
        body := none }
  ∧ Command.format_request (Command.GetElementCSSValue e name) s =
      { method := RequestMethod.Get,
        url := "/session/" ++ s ++ "/element/" ++ e ++ "/css/" ++ name,
        body := none } :=
  ⟨rfl, rfl, rfl⟩

/-- C2: the body-presence policy of `format_request`: every GET command has
an absent body; every deletion command has method DELETE and an absent
body; every state-changing POST with no intrinsic payload has method POST
and a body present and equal to the empty JSON object. -/
theorem body_presence_policy (c : Command) (s : SessionId) :
    ((Command.format_request c s).method = RequestMethod.Get →
      (Command.format_request c s).body = none)
  ∧ (Command.isDeletion c = true →
      (Command.format_request c s).method = RequestMethod.Delete
        ∧ (Command.format_request c s).body = none)
  ∧ (Command.isEmptyPayloadPost c = true →
      (Command.format_request c s).method = RequestMethod.Post
        ∧ (Command.format_request c s).body = some (Json.obj [])) := by
  cases c <;>
    simp [Command.format_request, Command.isDeletion, Command.isEmptyPayloadPost,
      RequestData.new, RequestData.add_body]

/-- C2 witness: the policy instantiated at a GET command, a DELETE command
and an empty-payload POST command. -/
theorem body_presence_policy_witness :
    (Command.format_request Command.Status "sid").body = none
  ∧ ((Command.format_request Command.DeleteAllCookies "sid").method =
        RequestMethod.Delete
      ∧ (Command.format_request Command.DeleteAllCookies "sid").body = none)
  ∧ ((Command.format_request Command.Back "sid").method = RequestMethod.Post
      ∧ (Command.format_request Command.Back "sid").body =
          some (Json.obj [])) :=
  ⟨(body_presence_policy Command.Status "sid").1 rfl,
   (body_presence_policy Command.DeleteAllCookies "sid").2.1 rfl,
   (body_presence_policy Command.Back "sid").2.2 rfl⟩

/-- C7: both send-keys commands produce a POST body containing the `text`
key mapped to the concatenated string form and the `value` key mapped to
the per-character sequence form, derived from the same typing data. -/
theorem send_keys_dual_views (s : SessionId) (e : ElementId) (t : TypingData) :
    (Command.format_request (Command.ElementSendKeys e t) s).body.map
      (fun b => (b.lookup "text", b.lookup "value")) =
      some (some (Json.str t.to_string), some t.as_vec_json)
  ∧ (Command.format_request (Command.SendAlertText t) s).body.map
      (fun b => (b.lookup "text", b.lookup "value")) =
      some (some (Json.str t.to_string), some t.as_vec_json) :=
  ⟨rfl, rfl⟩

/-- C8 counterexample: at a concrete capabilities document that is not an
object, building the NewSession request does not fail — `format_request`
has no error channel and returns an ordinary `RequestData`, so no
MalformedCapabilities error is propagated to the caller. -/
theorem new_session_no_failure_counterexample :
    Command.format_request (Command.NewSession (Json.str "not-an-object")) "sid" =
      { method := RequestMethod.Post, url := "/session",
        body := some (Json.obj
          [("capabilities", make_w3c_caps (Json.str "not-an-object")),
           ("desiredCapabilities", Json.str "not-an-object")]) } :=
  rfl

/-- C8 amended: building the NewSession request never fails: for every
capabilities document, including non-objects, `format_request` (whose
return type is the plain `RequestData`, with no error channel) returns a
POST to `/session` carrying both capability keys; no MalformedCapabilities
error is reachable from request building. -/
theorem new_session_infallible (caps : Json) (s : SessionId) :
    ∃ r : RequestData,
      Command.format_request (Command.NewSession caps) s = r
        ∧ r.method = RequestMethod.Post
        ∧ r.url = "/session"
        ∧ r.body = some (Json.obj
            [("capabilities", make_w3c_caps caps),
             ("desiredCapabilities", caps)]) :=
  ⟨_, rfl, rfl, rfl, rfl⟩

/-- Every base64 digit is a valid header character. -/
theorem b64char_valid (n : Nat) : validHeaderChar (b64char n) := by
  have hall : ∀ c ∈ base64Alphabet.toList, validHeaderChar c := by decide
  unfold b64char
  rw [List.getD_eq_getElem?_getD]
  cases hc : base64Alphabet.toList[n]? with
  | none => simp only [Option.getD_none]; decide
  | some c => simpa using hall c (List.getElem?_mem hc)

/-- Every character of a base64 encoding is a valid header character. -/
theorem base64Encode_valid :
    ∀ bs : List Nat, ∀ c ∈ (base64Encode bs).toList, validHeaderChar c
  | [] => by intro c hc; simp [base64Encode] at hc
  | [a] => by
      intro c hc
      simp only [base64Encode, String.toList, String.mk, List.mem_cons,
        List.not_mem_nil, or_false] at hc
      rcases hc with rfl | rfl | rfl | rfl
      · exact b64char_valid _
      · exact b64char_valid _
      · decide
      · decide
  | [a, b] => by
      intro c hc
      simp only [base64Encode, String.toList, String.mk, List.mem_cons,
        List.not_mem_nil, or_false] at hc
      rcases hc with rfl | rfl | rfl | rfl
      · exact b64char_valid _
      · exact b64char_valid _
      · exact b64char_valid _
      · decide
  | a :: b :: d :: rest => by
      intro c hc
      rw [base64Encode] at hc
      rw [show (String.mk [b64char (a / 4), b64char (a % 4 * 16 + b / 16),
            b64char (b % 16 * 4 + d / 64), b64char (d % 64)]
            ++ base64Encode rest).toList
          = [b64char (a / 4), b64char (a % 4 * 16 + b / 16),
             b64char (b % 16 * 4 + d / 64), b64char (d % 64)]
            ++ (base64Encode rest).toList from String.data_append _ _] at hc
      rcases List.mem_append.mp hc with h | h
      · simp only [List.mem_cons, List.not_mem_nil, or_false] at h
        rcases h with rfl | rfl | rfl | rfl
        · exact b64char_valid _
        · exact b64char_valid _
        · exact b64char_valid _
        · exact b64char_valid _
      · exact base64Encode_valid rest c h

/-- A string of valid header characters parses successfully as a header
value. -/
theorem parseHeaderValue_ok (s : String)
    (h : ∀ c ∈ s.toList, validHeaderChar c) :
    parseHeaderValue s = Except.ok s := by
  have hb : s.toList.all (fun c => decide (validHeaderChar c)) = true := by
    rw [List.all_eq_true]
    intro c hc
    exact decide_eq_true (h c hc)
  unfold parseHeaderValue
  rw [hb]
  rfl

/-- Every character of the literal `Basic ` prefix is a valid header
character. -/
theorem basic_prefix_valid : ∀ c ∈ "Basic ".toList, validHeaderChar c := by
  decide

/-- C9: `build_headers` always succeeds and sets Accept, Content-Type, a
fixed client/version User-Agent and Connection: keep-alive; it carries an
Authorization header equal to `Basic` followed by the base64 encoding of
`username:password` exactly when the server URL yields both a username and
a password, and no Authorization header otherwise; its only failure path is
a header value that fails to encode, and no produced value ever does. -/
theorem build_headers_spec (addr : String) :
    ∃ headers : HeaderMap,
      build_headers addr = Except.ok headers
        ∧ lookupHeader headers "accept" = some "application/json"
        ∧ lookupHeader headers "content-type" =
            some "application/json;charset=UTF-8"
        ∧ lookupHeader headers "user-agent" =
            some ("thirtyfour/" ++ VERSION ++ " (rust)")
        ∧ lookupHeader headers "connection" = some "keep-alive"
        ∧ lookupHeader headers "authorization" =
            (match (urlparse addr).username, (urlparse addr).password with
             | some u, some p =>
                 some ("Basic " ++ base64Encode (strBytes (u ++ ":" ++ p)))
             | _, _ => none) := by
  rcases hup : urlparse addr with ⟨ou, op⟩
  cases ou with
  | none =>
      cases op with
      | none =>
          refine ⟨[("accept", "application/json"),
                   ("content-type", "application/json;charset=UTF-8"),
                   ("user-agent", "thirtyfour/" ++ VERSION ++ " (rust)"),
                   ("connection", "keep-alive")], ?_, rfl, rfl, rfl, rfl, ?_⟩
          · unfold build_headers
            rw [hup]
            rfl
          · rfl
      | some p =>
          refine ⟨[("accept", "application/json"),
                   ("content-type", "application/json;charset=UTF-8"),
                   ("user-agent", "thirtyfour/" ++ VERSION ++ " (rust)"),
                   ("connection", "keep-alive")], ?_, rfl, rfl, rfl, rfl, ?_⟩
          · unfold build_headers
            rw [hup]
            rfl
          · rfl
  | some u =>
      cases op with
      | none =>
          refine ⟨[("accept", "application/json"),
                   ("content-type", "application/json;charset=UTF-8"),
                   ("user-agent", "thirtyfour/" ++ VERSION ++ " (rust)"),
                   ("connection", "keep-alive")], ?_, rfl, rfl, rfl, rfl, ?_⟩
          · unfold build_headers
            rw [hup]
            rfl
          · rfl
      | some p =>
          have hauth : parseHeaderValue
              ("Basic " ++ base64Encode (strBytes (u ++ ":" ++ p))) =
              Except.ok ("Basic " ++ base64Encode (strBytes (u ++ ":" ++ p))) := by
            apply parseHeaderValue_ok
            intro c hc
            rw [show ("Basic " ++ base64Encode (strBytes (u ++ ":" ++ p))).toList
                = "Basic ".toList ++ (base64Encode (strBytes (u ++ ":" ++ p))).toList
              from String.data_append _ _] at hc
            rcases List.mem_append.mp hc with h | h
            · exact basic_prefix_valid c h
            · exact base64Encode_valid _ c h
          refine ⟨[("accept", "application/json"),
                   ("content-type", "application/json;charset=UTF-8"),
                   ("user-agent", "thirtyfour/" ++ VERSION ++ " (rust)"),
                   ("authorization",
                     "Basic " ++ base64Encode (strBytes (u ++ ":" ++ p))),
                   ("connection", "keep-alive")],
                  ?_, rfl, rfl, rfl, rfl, ?_⟩
          · unfold build_headers
            rw [hup]
            show (do
              let auth ← parseHeaderValue
                ("Basic " ++ base64Encode (strBytes (u ++ ":" ++ p)))
              let connection ← parseHeaderValue "keep-alive"
              pure ([("accept", "application/json"),
                     ("content-type", "application/json;charset=UTF-8"),
                     ("user-agent", "thirtyfour/" ++ VERSION ++ " (rust)")]
                ++ [("authorization", auth)] ++ [("connection", connection)]) :
              Except RemoteConnectionError HeaderMap) = _
            rw [hauth]
            rfl
          · rfl

/-- If any element of the list fails to decode, the monadic traversal of
the whole list fails (fail-fast, no partial result). -/
theorem mapM_error_of_mem {α : Type} (dec : Decoder α) :
    ∀ xs : List Json, (∃ x ∈ xs, ∃ e, dec x = Except.error e) →
      ∃ e, xs.mapM dec = Except.error e := by
  intro xs
  induction xs with
  | nil =>
      rintro ⟨x, hx, _⟩
      exact absurd hx (List.not_mem_nil x)
  | cons y ys ih =>
      rintro ⟨x, hx, e, he⟩
      rw [List.mem_cons] at hx
      cases hd : dec y with
      | error e1 =>
          refine ⟨e1, ?_⟩
          rw [List.mapM_cons, hd]
          rfl
      | ok a =>
          have hxys : x ∈ ys := by
            rcases hx with rfl | h
            · rw [hd] at he
              cases he
            · exact h
          rcases ih ⟨x, hxys, e, he⟩ with ⟨e1, he1⟩
          refine ⟨e1, ?_⟩
          rw [List.mapM_cons, hd]
          show ys.mapM dec >>= (fun xs => pure (a :: xs)) = Except.error e1
          rw [he1]
          rfl

/-- C10: decoding with `unwrap_vec` is all-or-nothing: on a JSON array with
an element that does not match the target type it fails with a
DeserializationError and returns no partial sequence; and both entry points
operate on a structural copy of the input value that equals the input (the
input JSON value is left unchanged). -/
theorem unwrap_vec_all_or_nothing {α : Type} (dec : Decoder α) (v : Json)
    (xs : List Json) (hv : v = Json.arr xs)
    (hbad : ∃ x ∈ xs, ∃ e, dec x = Except.error e) :
    (∃ cause, unwrap_vec dec v =
        Except.error (WebDriverError.DeserializationError cause))
  ∧ (∀ l : List α, unwrap_vec dec v ≠ Except.ok l)
  ∧ Json.clone v = v
  ∧ unwrap dec (Json.clone v) = unwrap dec v
  ∧ unwrap_vec dec (Json.clone v) = unwrap_vec dec v := by
  subst hv
  rcases mapM_error_of_mem dec xs hbad with ⟨e, he⟩
  have hresult : unwrap_vec dec (Json.arr xs) =
      Except.error (WebDriverError.DeserializationError e) := by
    unfold unwrap_vec
    rw [Json.clone_id]
    show (match xs.mapM dec with
      | Except.ok v => Except.ok v
      | Except.error e =>
          Except.error (WebDriverError.DeserializationError e)) = _
    rw [he]
  refine ⟨⟨e, hresult⟩, ?_, Json.clone_id _, ?_, ?_⟩
  · intro l hl
    rw [hresult] at hl
    cases hl
  · rw [Json.clone_id]
  · rw [Json.clone_id]

/-- C10 witness: the all-or-nothing behaviour exercised with the boolean
decoder on the concrete array `[true, "x"]`, whose second element is not a
boolean. -/
theorem unwrap_vec_all_or_nothing_witness :
    (∃ cause, unwrap_vec decodeBool (Json.arr [Json.bool true, Json.str "x"]) =
        Except.error (WebDriverError.DeserializationError cause))
  ∧ (∀ l : List Bool,
      unwrap_vec decodeBool (Json.arr [Json.bool true, Json.str "x"]) ≠
        Except.ok l)
  ∧ Json.clone (Json.arr [Json.bool true, Json.str "x"]) =
      Json.arr [Json.bool true, Json.str "x"]
  ∧ unwrap decodeBool (Json.clone (Json.arr [Json.bool true, Json.str "x"])) =
      unwrap decodeBool (Json.arr [Json.bool true, Json.str "x"])
  ∧ unwrap_vec decodeBool (Json.clone (Json.arr [Json.bool true, Json.str "x"])) =
      unwrap_vec decodeBool (Json.arr [Json.bool true, Json.str "x"]) :=
  unwrap_vec_all_or_nothing decodeBool _ [Json.bool true, Json.str "x"] rfl
    ⟨Json.str "x", List.mem_cons_of_mem _ (List.mem_cons_self _ _),
     "invalid type: expected a boolean", rfl⟩
